import Mathlib

/-!
Shallow embedding of the access-control core of the smart-village-backend
repository, and proofs about its authorization behaviour.

Conventions of the embedding:
* `datetime.utcnow()` values are rationals (seconds); the "current time" is
  passed explicitly as a `now : ℚ` argument to every function that reads the
  clock in the source.
* SQLAlchemy tables are lists of rows in insertion order; `query.filter(...)`
  is `List.filter`, `query.filter(...).first()` is `List.find?` (the source
  query in `EmergencyOverride.check_override` carries no `order_by`, so the
  embedding returns the first row of the table in stored order).
* Python truthiness of an optional string (`if village_id:`) is `strTruthy`:
  false for `None` and for the empty string.
* The Flask decorators in `src/middleware/security_middleware.py` are
  embedded as pure functions from the authenticated user (an `Option User`,
  `none` when `get_current_user()` returns `None`) and the request data to a
  decision value.
-/

/-- A role as in `src/models/user_model.py` (`Role`): a name and the names of
the permissions the role bundles (`role.permissions`, compared by
`perm.name`). -/
structure Role where
  name : String
  permissions : List String
deriving DecidableEq, Repr

/-- A user as in `src/models/user_model.py` (`User`), restricted to the fields
the authorization paths read: `id`, the `roles` relationship, `locked_until`,
and the user's active `UserVillage` assignments (the village ids for which a
`UserVillage` row with `is_active=True` exists, in the order the table
returns them). -/
structure User where
  id : String
  roles : List Role
  locked_until : Option ℚ
  assigned_villages : List String
deriving DecidableEq, Repr

/-- An emergency override row as in
`src/models/emergency_override.py` (`EmergencyOverride`), restricted to the
fields read by matching, extension and revocation. -/
structure EmergencyOverride where
  id : ℕ
  user_id : String
  target_resource : String
  target_id : Option String
  action : String
  reason : String
  is_active : Bool
  expires_at : ℚ
  created_at : ℚ
deriving DecidableEq, Repr

/-- Python truthiness of an optional string: `None` and `""` are falsy. -/
def strTruthy : Option String → Bool
  | none => false
  | some s => !s.isEmpty

/-- Python's `str.lower()`, embedded as a character-wise lowercase map (the
role names the source compares are ASCII). -/
def strLower (s : String) : String :=
  ⟨s.data.map Char.toLower⟩

/-- `User.has_role` (user_model.py lines 99-101): case-insensitive comparison
of the argument against the names of the user's roles. -/
def has_role (u : User) (role_name : String) : Bool :=
  u.roles.any fun r => strLower r.name == strLower role_name

/-- `User.has_permission` (user_model.py lines 103-108): the permission name
occurs in some role's permission list. -/
def has_permission (u : User) (permission_name : String) : Bool :=
  u.roles.any fun r => r.permissions.any fun p => p == permission_name

/-- `User.is_superadmin` (user_model.py lines 123-126). -/
def is_superadmin (u : User) : Bool :=
  has_role u "superadmin"

/-- `User.is_locked` (user_model.py lines 73-77): locked iff `locked_until`
is set and lies strictly in the future. -/
def is_locked (u : User) (now : ℚ) : Bool :=
  match u.locked_until with
  | some t => decide (t > now)
  | none => false

/-- `User.get_assigned_villages` with `active_only=True` (user_model.py lines
296-307): the villages of the user's active assignments. -/
def get_assigned_villages (u : User) : List String :=
  u.assigned_villages

/-- `User.has_village_access` (user_model.py lines 319-332): superadmin has
access to every village; otherwise an active `UserVillage` assignment for the
village must exist. -/
def has_village_access (u : User) (village_id : String) : Bool :=
  if has_role u "superadmin" then true
  else u.assigned_villages.contains village_id

/-- `EmergencyOverride.is_expired` (emergency_override.py lines 52-55):
expired iff `now` is strictly past `expires_at`. -/
def is_expired (o : EmergencyOverride) (now : ℚ) : Bool :=
  decide (now > o.expires_at)

/-- `EmergencyOverride.is_valid` (emergency_override.py lines 57-60): active
and not expired. -/
def is_valid (o : EmergencyOverride) (now : ℚ) : Bool :=
  o.is_active && !(is_expired o now)

/-- `EmergencyOverride.matches_request` (emergency_override.py lines 88-95):
exact resource and action equality, wildcard-or-equal target id, and live
validity. -/
def matches_request (o : EmergencyOverride) (resource : String)
    (target_id : Option String) (action : String) (now : ℚ) : Bool :=
  (o.target_resource == resource) &&
  (o.target_id.isNone || o.target_id == target_id) &&
  (o.action == action) &&
  is_valid o now

/-- The row predicate of the query in `EmergencyOverride.check_override`
(emergency_override.py lines 165-182): `filter_by(user_id, target_resource,
action, is_active=True)`, then `expires_at > now`, then
`target_id IS NULL OR target_id = requested`. -/
def override_qualifies (o : EmergencyOverride) (user_id resource : String)
    (target_id : Option String) (action : String) (now : ℚ) : Bool :=
  (o.user_id == user_id) &&
  (o.target_resource == resource) &&
  (o.action == action) &&
  o.is_active &&
  decide (o.expires_at > now) &&
  (o.target_id.isNone || o.target_id == target_id)

/-- `EmergencyOverride.check_override` (emergency_override.py lines 165-182):
the query has no `order_by`, so `.first()` yields the first qualifying row in
stored table order. -/
def check_override (tbl : List EmergencyOverride) (user_id resource : String)
    (target_id : Option String) (action : String) (now : ℚ) :
    Option EmergencyOverride :=
  tbl.find? fun o => override_qualifies o user_id resource target_id action now

/-- `User.has_emergency_override` (user_model.py lines 404-413). -/
def has_emergency_override (u : User) (tbl : List EmergencyOverride)
    (resource : String) (target_id : Option String) (action : String)
    (now : ℚ) : Bool :=
  (check_override tbl u.id resource target_id action now).isSome

/-- `User.has_permission_with_village_scope` (user_model.py lines 421-436):
basic permission first, then the superadmin bypass, then the village check
when a village id is given; with no village id the user must have at least
one active village assignment. -/
def has_permission_with_village_scope (u : User) (permission : String)
    (village_id : Option String) : Bool :=
  if !(has_permission u permission) then false
  else if has_role u "superadmin" then true
  else if strTruthy village_id then has_village_access u (village_id.getD "")
  else decide ((get_assigned_villages u).length > 0)

/-- `User.check_resource_access` (user_model.py lines 438-450): the emergency
override is checked first, then the scoped permission. -/
def check_resource_access (u : User) (tbl : List EmergencyOverride)
    (resource action : String) (village_id target_id : Option String)
    (now : ℚ) : Bool × String :=
  if has_emergency_override u tbl resource target_id action now then
    (true, "emergency_override")
  else if has_permission_with_village_scope u (resource ++ "." ++ action) village_id then
    (true, "permission_granted")
  else
    (false, "access_denied")

/-- The spec's reason vocabulary for gateway decisions (§4.5), used to label
the branches of `require_village_scope`. -/
inductive Reason where
  | roleBypass
  | permissionGranted
  | emergencyOverride
  | permissionDenied
  | scopeDenied
  | rateLimited
  | locked
  | authRequired
deriving DecidableEq, Repr

/-- A gateway decision: allow or deny, with the reason of the deciding
branch. -/
inductive Decision where
  | allow (r : Reason)
  | deny (r : Reason)
deriving DecidableEq, Repr

/-- `permission.split('.')[0]` as used in the middleware. -/
def permResource (permission : String) : String :=
  (permission.splitOn ".").getD 0 ""

/-- `permission.split('.')[1]` as used in the middleware. -/
def permAction (permission : String) : String :=
  (permission.splitOn ".").getD 1 ""

/-- `require_village_scope` (security_middleware.py lines 52-143), embedded as
a function of the authenticated user, the guarded permission, the request's
village id, the override table and the clock. The second component records
whether `EmergencyOverride.check_override` was called on the way to the
decision (the two call sites at lines 88 and 118). Branch labels: the
superadmin early return is `allow roleBypass`, the final fall-through is
`allow permissionGranted`, the 403 responses are `deny permissionDenied` and
`deny scopeDenied`, and the 401 is `deny authRequired`. -/
def require_village_scope (userOpt : Option User) (permission : String)
    (village_id : Option String) (tbl : List EmergencyOverride) (now : ℚ)
    (allow_emergency_override : Bool) : Decision × Bool :=
  match userOpt with
  | none => (Decision.deny Reason.authRequired, false)
  | some u =>
    if has_role u "superadmin" then
      (Decision.allow Reason.roleBypass, false)
    else if !(has_permission u permission) then
      if allow_emergency_override && strTruthy village_id then
        match check_override tbl u.id (permResource permission) village_id
            (permAction permission) now with
        | some _ => (Decision.allow Reason.emergencyOverride, true)
        | none => (Decision.deny Reason.permissionDenied, true)
      else (Decision.deny Reason.permissionDenied, false)
    else if strTruthy village_id && !(has_village_access u (village_id.getD "")) then
      if allow_emergency_override then
        match check_override tbl u.id (permResource permission) village_id
            (permAction permission) now with
        | some _ => (Decision.allow Reason.emergencyOverride, true)
        | none => (Decision.deny Reason.scopeDenied, true)
      else (Decision.deny Reason.scopeDenied, false)
    else (Decision.allow Reason.permissionGranted, false)

/-- An HTTP response of the emergency-override routes, reduced to the status
code and the machine-readable error code of the JSON body when one is set. -/
structure Resp where
  status : ℕ
  code : Option String
deriving DecidableEq, Repr

/-- Modelled from the spec: the `require_permission` decorator is imported
from `src/routes/auth_routes.py`, a module whose source is not among the
provided files (only its callers are). Per §4.3 and §6 of the spec the
gateway checks that the caller already holds the named permission before the
route body runs, so the modelled gate denies an unauthenticated caller with
401 and a caller lacking the permission with 403, and otherwise lets the
route body run. -/
def require_permission_gate (userOpt : Option User) (permission_name : String) :
    Option Resp :=
  match userOpt with
  | none => some ⟨401, none⟩
  | some u =>
    if has_permission u permission_name then none
    else some ⟨403, some "PERMISSION_DENIED"⟩

/-- The JSON body of `POST /api/emergency-override`
(emergency_override_routes.py lines 23-89), reduced to the fields the route
reads. `none` stands for a request without a JSON body. -/
structure CreateReq where
  target_resource : String
  action : String
  reason : String
  target_id : Option String
  expires_in_hours : ℚ
deriving DecidableEq, Repr

/-- `create_emergency_override` (emergency_override_routes.py lines 23-89):
permission gate, superadmin double-check, required-field and reason-length
validation, the 0.1-24 hour bound, then `EmergencyOverride.create_override`
(emergency_override.py lines 148-163), which appends a new active row with
`expires_at = now + hours` to the table. `fresh_id` is the id the database
assigns to the new row. -/
def create_emergency_override (userOpt : Option User) (body : Option CreateReq)
    (now : ℚ) (tbl : List EmergencyOverride) (fresh_id : ℕ) :
    Resp × List EmergencyOverride :=
  match require_permission_gate userOpt "audit.emergency_override" with
  | some r => (r, tbl)
  | none =>
    match userOpt with
    | none => (⟨401, none⟩, tbl)
    | some u =>
      if !(has_role u "superadmin") then
        (⟨403, some "INSUFFICIENT_ROLE"⟩, tbl)
      else
        match body with
        | none => (⟨400, none⟩, tbl)
        | some data =>
          if data.target_resource.isEmpty || data.action.isEmpty || data.reason.isEmpty then
            (⟨400, none⟩, tbl)
          else if (data.reason.trim.length < 10 : Bool) then
            (⟨400, none⟩, tbl)
          else if data.expires_in_hours < 1/10 || data.expires_in_hours > 24 then
            (⟨400, none⟩, tbl)
          else
            (⟨201, none⟩, tbl ++ [{
              id := fresh_id,
              user_id := u.id,
              target_resource := data.target_resource,
              target_id := data.target_id,
              action := data.action,
              reason := data.reason.trim,
              is_active := true,
              expires_at := now + data.expires_in_hours * 3600,
              created_at := now }])

/-- `extend_emergency_override` (emergency_override_routes.py lines 214-263):
permission gate, superadmin double-check, 404 on an unknown id, 400 with code
`OVERRIDE_REVOKED` when the grant is no longer `is_active`, the 0.1-12 hour
bound, then `EmergencyOverride.extend_expiry` (emergency_override.py lines
74-76), which sets `expires_at = now + hours` on the stored row. -/
def extend_emergency_override (userOpt : Option User) (override_id : ℕ)
    (hours : ℚ) (now : ℚ) (tbl : List EmergencyOverride) :
    Resp × List EmergencyOverride :=
  match require_permission_gate userOpt "audit.emergency_override" with
  | some r => (r, tbl)
  | none =>
    match userOpt with
    | none => (⟨401, none⟩, tbl)
    | some u =>
      if !(has_role u "superadmin") then
        (⟨403, some "INSUFFICIENT_ROLE"⟩, tbl)
      else
        match tbl.find? (fun o => o.id == override_id) with
        | none => (⟨404, none⟩, tbl)
        | some o =>
          if !o.is_active then
            (⟨400, some "OVERRIDE_REVOKED"⟩, tbl)
          else if hours < 1/10 || hours > 12 then
            (⟨400, none⟩, tbl)
          else
            (⟨200, none⟩, tbl.map fun g =>
              if g.id == override_id then { g with expires_at := now + hours * 3600 }
              else g)

/-- One call of the `rate_limit` decorator's body
(security_middleware.py lines 19-50) for one identity key: prune the stored
timestamps to those strictly inside the trailing window, reject when the
remaining count has reached `max_requests`, otherwise append the current
time and accept. The window length is in the same time unit as the
timestamps (the source uses `window_minutes * 60` seconds). -/
def rate_limit_call (storage : List ℚ) (now : ℚ) (max_requests : ℕ)
    (window : ℚ) : Bool × List ℚ :=
  let pruned := storage.filter fun ts => decide (ts > now - window)
  if max_requests ≤ pruned.length then (false, pruned)
  else (true, pruned ++ [now])

/-- Iterated `rate_limit_call` over a list of request times for one identity
key, returning the accept/reject decision of every call and the final stored
timestamp list. -/
def run_rate_limiter (max_requests : ℕ) (window : ℚ) :
    List ℚ → List ℚ → List Bool × List ℚ
  | storage, [] => ([], storage)
  | storage, t :: ts =>
    let step := rate_limit_call storage t max_requests window
    let rest := run_rate_limiter max_requests window step.2 ts
    (step.1 :: rest.1, rest.2)

/-- A user holding the `superadmin` role under a mixed-case name and no
permissions or village assignments. -/
def demoSuperadmin : User :=
  { id := "u1",
    roles := [{ name := "SuperAdmin", permissions := [] }],
    locked_until := none,
    assigned_villages := [] }

/-- A superadmin whose account lock expires 600 seconds after decision
time 0. -/
def demoLockedSuperadmin : User :=
  { id := "u9",
    roles := [{ name := "superadmin", permissions := [] }],
    locked_until := some 600,
    assigned_villages := [] }

/-- C1: for a principal holding the `superadmin` role, `require_village_scope`
decides Allow with the role-bypass reason for every permission, village id,
override table, clock value and emergency-override setting, and
`EmergencyOverride.check_override` is never called on the way (the consulted
flag is `false`). -/
theorem superadmin_role_bypass_no_override (u : User) (permission : String)
    (village_id : Option String) (tbl : List EmergencyOverride) (now : ℚ)
    (aeo : Bool) (h : has_role u "superadmin" = true) :
    require_village_scope (some u) permission village_id tbl now aeo
      = (Decision.allow Reason.roleBypass, false) := by
  simp [require_village_scope, h]

/-- Witness for C1 at a concrete superadmin, permission, village and table. -/
theorem superadmin_role_bypass_no_override_witness :
    has_role demoSuperadmin "superadmin" = true ∧
    require_village_scope (some demoSuperadmin) "villages.update" (some "V1") [] 0 true
      = (Decision.allow Reason.roleBypass, false) :=
  ⟨by decide,
   superadmin_role_bypass_no_override demoSuperadmin "villages.update"
     (some "V1") [] 0 true (by decide)⟩

/-- C3 counterexample: a principal whose lock expiry lies 600 seconds in the
future is locked at decision time 0, yet `require_village_scope` allows the
request (role bypass) instead of denying it with reason locked: the gateway
performs no lock check. -/
theorem locked_superadmin_allowed_cex :
    is_locked demoLockedSuperadmin 0 = true ∧
    require_village_scope (some demoLockedSuperadmin) "villages.update" (some "V1") [] 0 true
      = (Decision.allow Reason.roleBypass, false) := by
  decide

/-- C3 amended: the decision of `require_village_scope` is entirely
independent of the principal's `locked_until` field — the lock-expiry
denial is not enforced at this authorization point for any request. -/
theorem require_village_scope_ignores_lock (u : User) (l₁ l₂ : Option ℚ)
    (permission : String) (village_id : Option String)
    (tbl : List EmergencyOverride) (now : ℚ) (aeo : Bool) :
    require_village_scope (some { u with locked_until := l₁ }) permission village_id tbl now aeo
      = require_village_scope (some { u with locked_until := l₂ }) permission village_id tbl now aeo := rfl

/-- C6: a grant matches a request exactly when resource and action are
string-equal, the grant's target id is null or equal to the requested one,
and the grant is live (`is_active` and `now ≤ expires_at`); the wildcard and
concrete-target behaviours are instances of the target-id disjunct. -/
theorem matches_request_iff (o : EmergencyOverride) (resource : String)
    (target_id : Option String) (action : String) (now : ℚ) :
    matches_request o resource target_id action now = true ↔
      (o.target_resource = resource ∧
       (o.target_id = none ∨ o.target_id = target_id) ∧
       o.action = action ∧
       o.is_active = true ∧ now ≤ o.expires_at) := by
  simp [matches_request, is_valid, is_expired, Bool.and_eq_true, Bool.or_eq_true,
        beq_iff_eq, Option.isNone_iff_eq_none, Bool.not_eq_true',
        decide_eq_false_iff_not, not_lt, and_assoc]

/-- A village administrator holding permission `villages.update` with an
active assignment to village `V1`. -/
def demoAlice : User :=
  { id := "u2",
    roles := [{ name := "village_admin", permissions := ["villages.update"] }],
    locked_until := none,
    assigned_villages := ["V1"] }

/-- A live override grant for `demoAlice` on `villages.update` at target
`V1`, created at time 0 and expiring at time 1000. -/
def demoOverrideV1 : EmergencyOverride :=
  { id := 1,
    user_id := "u2",
    target_resource := "villages",
    target_id := some "V1",
    action := "update",
    reason := "water pump failure needs fixing",
    is_active := true,
    expires_at := 1000,
    created_at := 0 }

/-- C2 counterexample: `demoAlice` holds the permission and passes the
village-scope check, yet `User.check_resource_access` decides the request
through override matching (reason `emergency_override`, not
`permission_granted`): the override authority is consulted before — not only
after — the ordinary permission check. -/
theorem check_resource_access_override_first_cex :
    has_permission demoAlice "villages.update" = true ∧
    has_permission_with_village_scope demoAlice "villages.update" (some "V1") = true ∧
    check_resource_access demoAlice [demoOverrideV1] "villages" "update"
      (some "V1") (some "V1") 0 = (true, "emergency_override") := by
  decide

/-- C2 amended: in the `require_village_scope` gateway, override matching is
consulted only once the permission check or the village-scope check has
failed, and a non-superadmin request with the permission and a passing scope
check is allowed without consulting it; `User.check_resource_access`, by
contrast, lets a qualifying override decide the request ahead of the
ordinary grant. -/
theorem override_consulted_only_after_failure (u : User) (permission : String)
    (village_id : Option String) (tbl : List EmergencyOverride) (now : ℚ)
    (aeo : Bool) (resource action : String) (vid₂ tid : Option String) :
    ((require_village_scope (some u) permission village_id tbl now aeo).2 = true →
      has_role u "superadmin" = false ∧
      (has_permission u permission = false ∨
       (strTruthy village_id = true ∧
        has_village_access u (village_id.getD "") = false))) ∧
    (has_permission u permission = true →
     (strTruthy village_id = false ∨ has_village_access u (village_id.getD "") = true) →
     has_role u "superadmin" = false →
     require_village_scope (some u) permission village_id tbl now aeo
       = (Decision.allow Reason.permissionGranted, false)) ∧
    ((check_override tbl u.id resource tid action now).isSome = true →
      check_resource_access u tbl resource action vid₂ tid now
        = (true, "emergency_override")) := by
  refine ⟨?_, ?_, ?_⟩
  · intro hc
    by_cases hsr : has_role u "superadmin" = true
    · simp [require_village_scope, hsr] at hc
    · rw [Bool.not_eq_true] at hsr
      by_cases hp : has_permission u permission = true
      · by_cases hst : strTruthy village_id = true
        · by_cases hva : has_village_access u (village_id.getD "") = true
          · simp [require_village_scope, hsr, hp, hst, hva] at hc
          · rw [Bool.not_eq_true] at hva
            exact ⟨hsr, Or.inr ⟨hst, hva⟩⟩
        · rw [Bool.not_eq_true] at hst
          simp [require_village_scope, hsr, hp, hst] at hc
      · rw [Bool.not_eq_true] at hp
        exact ⟨hsr, Or.inl hp⟩
  · intro hp hsc hsr
    rcases hsc with hst | hva
    · simp [require_village_scope, hsr, hp, hst]
    · simp [require_village_scope, hsr, hp, hva]
  · intro hov
    simp [check_resource_access, has_emergency_override, hov]

/-- Witness for the C2 amended theorem at `demoAlice`: the gateway allows her
request without consulting overrides, while `check_resource_access` lets the
matching grant decide. -/
theorem override_consulted_only_after_failure_witness :
    require_village_scope (some demoAlice) "villages.update" (some "V1") [] 0 true
      = (Decision.allow Reason.permissionGranted, false) ∧
    check_resource_access demoAlice [demoOverrideV1] "villages" "update"
      (some "V1") (some "V1") 0 = (true, "emergency_override") :=
  ⟨(override_consulted_only_after_failure demoAlice "villages.update"
      (some "V1") [] 0 true "villages" "update" (some "V1") (some "V1")).2.1
      (by decide) (Or.inr (by decide)) (by decide),
   (override_consulted_only_after_failure demoAlice "villages.update"
      (some "V1") [demoOverrideV1] 0 true "villages" "update" (some "V1") (some "V1")).2.2
      (by decide)⟩

/-- A staff user holding permission `reports.read` with zero active village
assignments. -/
def demoStaff : User :=
  { id := "u4",
    roles := [{ name := "staff", permissions := ["reports.read"] }],
    locked_until := none,
    assigned_villages := [] }

/-- C4 counterexample: `demoStaff` has the permission, zero active village
assignments and names no tenant, yet
`User.has_permission_with_village_scope` denies: with no village id the
function requires at least one active assignment, so the scope machinery
engages even without a tenant in the request. -/
theorem tenant_agnostic_zero_villages_denied_cex :
    has_permission demoStaff "reports.read" = true ∧
    get_assigned_villages demoStaff = [] ∧
    has_permission_with_village_scope demoStaff "reports.read" none = false := by
  decide

/-- C4 amended: at the `require_village_scope` gateway a request naming no
village id is decided by the permission check alone (the scope check never
engages and no override is consulted), so a permission-holder with zero
assignments is allowed there; the model-layer
`User.has_permission_with_village_scope`, however, denies a non-superadmin
with zero active assignments when no village id is given. -/
theorem tenant_agnostic_gateway_vs_model (u : User) (permission : String)
    (tbl : List EmergencyOverride) (now : ℚ) (aeo : Bool) :
    (has_permission u permission = true →
      (require_village_scope (some u) permission none tbl now aeo).2 = false ∧
      ∃ r, (require_village_scope (some u) permission none tbl now aeo).1
        = Decision.allow r) ∧
    (has_role u "superadmin" = false → get_assigned_villages u = [] →
      has_permission_with_village_scope u permission none = false) := by
  constructor
  · intro hp
    by_cases hsr : has_role u "superadmin" = true
    · simp [require_village_scope, hsr]
    · rw [Bool.not_eq_true] at hsr
      simp [require_village_scope, hsr, hp, strTruthy]
  · intro hsr hav
    simp [has_permission_with_village_scope, hsr, strTruthy, hav]

/-- Witness for the C4 amended theorem at `demoStaff`. -/
theorem tenant_agnostic_gateway_vs_model_witness :
    ((require_village_scope (some demoStaff) "reports.read" none [] 0 true).2 = false ∧
     ∃ r, (require_village_scope (some demoStaff) "reports.read" none [] 0 true).1
       = Decision.allow r) ∧
    has_permission_with_village_scope demoStaff "reports.read" none = false :=
  ⟨(tenant_agnostic_gateway_vs_model demoStaff "reports.read" [] 0 true).1 (by decide),
   (tenant_agnostic_gateway_vs_model demoStaff "reports.read" [] 0 true).2
     (by decide) (by decide)⟩

/-- The earlier of two qualifying grants: created at time 0. -/
def demoOldOverride : EmergencyOverride :=
  { id := 1,
    user_id := "u5",
    target_resource := "villages",
    target_id := some "V1",
    action := "update",
    reason := "first emergency access window",
    is_active := true,
    expires_at := 1000,
    created_at := 0 }

/-- The later of two qualifying grants: created at time 10. -/
def demoNewOverride : EmergencyOverride :=
  { id := 2,
    user_id := "u5",
    target_resource := "villages",
    target_id := some "V1",
    action := "update",
    reason := "second emergency access window",
    is_active := true,
    expires_at := 1000,
    created_at := 10 }

/-- A table holding both qualifying grants in insertion order, the older
row first. -/
def demoOverrideTable : List EmergencyOverride :=
  [demoOldOverride, demoNewOverride]

/-- C5 counterexample: both grants qualify for the request at time 5, the
second has the more recent `created_at`, yet
`EmergencyOverride.check_override` — whose query has no `order_by` — returns
the first stored row, the older grant. -/
theorem check_override_not_most_recent_cex :
    override_qualifies demoNewOverride "u5" "villages" (some "V1") "update" 5 = true ∧
    demoNewOverride ∈ demoOverrideTable ∧
    demoOldOverride.created_at < demoNewOverride.created_at ∧
    check_override demoOverrideTable "u5" "villages" (some "V1") "update" 5
      = some demoOldOverride := by
  decide

/-- C5 amended: when several grants qualify, `check_override` returns exactly
one — the first qualifying row in stored table order (every earlier row
fails the query predicate); no most-recent-`created_at` selection takes
place, and matching never mutates the table. -/
theorem check_override_first_in_table_order (tbl : List EmergencyOverride)
    (uid res : String) (tid : Option String) (act : String) (now : ℚ)
    (g : EmergencyOverride)
    (h : check_override tbl uid res tid act now = some g) :
    ∃ pre post, tbl = pre ++ g :: post ∧
      override_qualifies g uid res tid act now = true ∧
      ∀ x ∈ pre, override_qualifies x uid res tid act now = false := by
  induction tbl with
  | nil => simp [check_override] at h
  | cons a l ih =>
    by_cases hpa : override_qualifies a uid res tid act now = true
    · have ha : a = g := by
        simpa [check_override, List.find?_cons, hpa] using h
      exact ⟨[], l, by simp [ha], ha ▸ hpa, by simp⟩
    · rw [Bool.not_eq_true] at hpa
      have h' : check_override l uid res tid act now = some g := by
        simpa [check_override, List.find?_cons, hpa] using h
      obtain ⟨pre, post, hsplit, hq, hpre⟩ := ih h'
      refine ⟨a :: pre, post, by simp [hsplit], hq, ?_⟩
      intro x hx
      rcases List.mem_cons.mp hx with hxa | hxp
      · exact hxa ▸ hpa
      · exact hpre x hxp

/-- Witness for the C5 amended theorem at the two-grant table. -/
theorem check_override_first_in_table_order_witness :
    ∃ pre post, demoOverrideTable = pre ++ demoOldOverride :: post ∧
      override_qualifies demoOldOverride "u5" "villages" (some "V1") "update" 5 = true ∧
      ∀ x ∈ pre, override_qualifies x "u5" "villages" (some "V1") "update" 5 = false :=
  check_override_first_in_table_order demoOverrideTable "u5" "villages"
    (some "V1") "update" 5 demoOldOverride (by decide)

/-- A superadmin who also holds the `audit.emergency_override` permission. -/
def demoBoss : User :=
  { id := "u7",
    roles := [{ name := "superadmin", permissions := ["audit.emergency_override"] }],
    locked_until := none,
    assigned_villages := [] }

/-- A revoked grant (`is_active = false`) that has not yet reached its
expiry. -/
def demoRevokedOverride : EmergencyOverride :=
  { id := 3,
    user_id := "u7",
    target_resource := "finance",
    target_id := none,
    action := "export",
    reason := "urgent audit data inspection",
    is_active := false,
    expires_at := 500,
    created_at := 0 }

/-- An active grant used to exercise the extension path. -/
def demoActiveOverride : EmergencyOverride :=
  { id := 4,
    user_id := "u7",
    target_resource := "finance",
    target_id := none,
    action := "export",
    reason := "urgent audit data inspection",
    is_active := true,
    expires_at := 500,
    created_at := 0 }

/-- C7: for an authorized caller, extending a revoked grant fails with the
conflict code `OVERRIDE_REVOKED` and leaves the table — in particular the
grant's `expires_at` — unchanged, never silently succeeding; extending an
active grant within the 0.1-12 hour bound succeeds and sets that grant's
`expires_at` to `now + hours` (a reset from the current clock, with no
dependence on the previous expiry), leaving every other grant unchanged. -/
theorem extend_reset_and_conflict (u : User) (oid : ℕ) (hours now : ℚ)
    (tbl : List EmergencyOverride) (o : EmergencyOverride)
    (hperm : has_permission u "audit.emergency_override" = true)
    (hrole : has_role u "superadmin" = true)
    (hfind : tbl.find? (fun g => g.id == oid) = some o) :
    (o.is_active = false →
      extend_emergency_override (some u) oid hours now tbl
        = (⟨400, some "OVERRIDE_REVOKED"⟩, tbl)) ∧
    (o.is_active = true → 1/10 ≤ hours → hours ≤ 12 →
      (extend_emergency_override (some u) oid hours now tbl).1 = ⟨200, none⟩ ∧
      ∀ g ∈ tbl,
        (g.id = oid →
          { g with expires_at := now + hours * 3600 }
            ∈ (extend_emergency_override (some u) oid hours now tbl).2) ∧
        (g.id ≠ oid →
          g ∈ (extend_emergency_override (some u) oid hours now tbl).2)) := by
  have hgate : require_permission_gate (some u) "audit.emergency_override" = none := by
    simp [require_permission_gate, hperm]
  constructor
  · intro ho
    simp [extend_emergency_override, hgate, hrole, hfind, ho]
  · intro ho h₁ h₂
    have hb₁ : ¬(hours < 1/10) := not_lt.mpr h₁
    have hb₂ : ¬(hours > 12) := not_lt.mpr h₂
    have hres : extend_emergency_override (some u) oid hours now tbl
        = (⟨200, none⟩, tbl.map fun g =>
            if g.id == oid then { g with expires_at := now + hours * 3600 }
            else g) := by
      simp [extend_emergency_override, hgate, hrole, hfind, ho, hb₁, hb₂]
      linarith
    rw [hres]
    refine ⟨rfl, ?_⟩
    intro g hg
    constructor
    · intro hgid
      have hfg : (if g.id == oid then { g with expires_at := now + hours * 3600 }
          else g) = { g with expires_at := now + hours * 3600 } := by
        simp [hgid]
      exact hfg ▸ List.mem_map_of_mem _ hg
    · intro hgid
      have hfg : (if g.id == oid then { g with expires_at := now + hours * 3600 }
          else g) = g := by
        simp [hgid]
      exact hfg ▸ List.mem_map_of_mem _ hg

/-- Witness for C7: the revoked grant yields the conflict response with the
table unchanged, and the active grant is extended with status 200. -/
theorem extend_reset_and_conflict_witness :
    extend_emergency_override (some demoBoss) 3 1 100 [demoRevokedOverride]
      = (⟨400, some "OVERRIDE_REVOKED"⟩, [demoRevokedOverride]) ∧
    (extend_emergency_override (some demoBoss) 4 2 100 [demoActiveOverride]).1
      = ⟨200, none⟩ :=
  ⟨(extend_reset_and_conflict demoBoss 3 1 100 [demoRevokedOverride]
      demoRevokedOverride (by decide) (by decide) (by decide)).1 (by decide),
   ((extend_reset_and_conflict demoBoss 4 2 100 [demoActiveOverride]
      demoActiveOverride (by decide) (by decide) (by decide)).2
      (by decide) (by norm_num) (by norm_num)).1⟩

/-- A non-superadmin caller who nevertheless holds the
`audit.emergency_override` permission. -/
def demoAuditor : User :=
  { id := "u8",
    roles := [{ name := "auditor", permissions := ["audit.emergency_override"] }],
    locked_until := none,
    assigned_villages := [] }

/-- C10: the creation endpoint requires the `superadmin` role on top of the
`audit.emergency_override` permission: a caller with the permission but
without the role receives the 403 `INSUFFICIENT_ROLE` failure and the
override table is unchanged — no grant is created. -/
theorem create_requires_superadmin (u : User) (body : Option CreateReq)
    (now : ℚ) (tbl : List EmergencyOverride) (fresh_id : ℕ)
    (hperm : has_permission u "audit.emergency_override" = true)
    (hrole : has_role u "superadmin" = false) :
    create_emergency_override (some u) body now tbl fresh_id
      = (⟨403, some "INSUFFICIENT_ROLE"⟩, tbl) := by
  simp [create_emergency_override, require_permission_gate, hperm, hrole]

/-- Witness for C10 at `demoAuditor` with a well-formed creation request. -/
theorem create_requires_superadmin_witness :
    create_emergency_override (some demoAuditor)
      (some { target_resource := "villages", action := "update",
              reason := "collapsed roof requires urgent access",
              target_id := some "V1", expires_in_hours := 1 }) 0 [] 1
      = (⟨403, some "INSUFFICIENT_ROLE"⟩, []) :=
  create_requires_superadmin demoAuditor
    (some { target_resource := "villages", action := "update",
            reason := "collapsed roof requires urgent access",
            target_id := some "V1", expires_in_hours := 1 }) 0 [] 1
    (by decide) (by decide)

/-- When every stored timestamp and the current time sit inside one span
shorter than the window, the pruning pass of `rate_limit_call` removes
nothing. -/
theorem rate_limiter_no_prune (storage : List ℚ) (now lo hi window : ℚ)
    (hs : ∀ e ∈ storage, lo ≤ e ∧ e ≤ hi) (_hn₁ : lo ≤ now) (hn₂ : now ≤ hi)
    (hw : hi - lo < window) :
    storage.filter (fun ts => decide (ts > now - window)) = storage := by
  apply List.filter_eq_self.mpr
  intro e he
  have h := hs e he
  have : now - window < e := by linarith [h.1, h.2]
  simpa using this

/-- Running the limiter over concatenated call lists chains the state
through the first block. -/
theorem run_rate_limiter_append (N : ℕ) (w : ℚ) (ts₁ ts₂ storage : List ℚ) :
    run_rate_limiter N w storage (ts₁ ++ ts₂)
      = ((run_rate_limiter N w storage ts₁).1
          ++ (run_rate_limiter N w (run_rate_limiter N w storage ts₁).2 ts₂).1,
         (run_rate_limiter N w (run_rate_limiter N w storage ts₁).2 ts₂).2) := by
  induction ts₁ generalizing storage with
  | nil => simp [run_rate_limiter]
  | cons t ts ih => simp [run_rate_limiter, ih]

/-- As long as the stored count plus the number of incoming calls stays
within the maximum and everything happens inside one window-sized span,
every call is accepted and each appends its timestamp. -/
theorem run_rate_limiter_all_accepted (N : ℕ) (w lo hi : ℚ)
    (hw : hi - lo < w) (ts : List ℚ) :
    ∀ storage : List ℚ,
      (∀ e ∈ storage, lo ≤ e ∧ e ≤ hi) →
      (∀ e ∈ ts, lo ≤ e ∧ e ≤ hi) →
      storage.length + ts.length ≤ N →
      run_rate_limiter N w storage ts
        = (List.replicate ts.length true, storage ++ ts) := by
  induction ts with
  | nil =>
    intro storage _ _ _
    simp [run_rate_limiter]
  | cons t ts ih =>
    intro storage hs ht hlen
    have htt := ht t (List.mem_cons_self t ts)
    have hts : ∀ e ∈ ts, lo ≤ e ∧ e ≤ hi :=
      fun e he => ht e (List.mem_cons_of_mem t he)
    have hprune := rate_limiter_no_prune storage t lo hi w hs htt.1 htt.2 hw
    have hcond : ¬ (N ≤ (storage.filter (fun ts => decide (ts > t - w))).length) := by
      rw [hprune]
      simp at hlen ⊢
      omega
    have hstep : rate_limit_call storage t N w = (true, storage ++ [t]) := by
      simp only [rate_limit_call]
      rw [if_neg hcond, hprune]
    have hs' : ∀ e ∈ storage ++ [t], lo ≤ e ∧ e ≤ hi := by
      intro e he
      rcases List.mem_append.mp he with h | h
      · exact hs e h
      · simp at h
        exact h ▸ htt
    have hlen' : (storage ++ [t]).length + ts.length ≤ N := by
      simp at hlen ⊢
      omega
    have hrec := ih (storage ++ [t]) hs' hts hlen'
    simp only [run_rate_limiter, hstep, hrec, List.length_cons, List.replicate_succ]
    simp

/-- C8: starting from an empty window state, a sequence of N+1 calls whose
timestamps all fall within one sub-window span of length d < W is admitted
exactly N times, the (N+1)th call is rejected, and a further call made once
the window has fully elapsed past the span is admitted again. -/
theorem rate_limiter_window_bound (N : ℕ) (w t d : ℚ) (ts : List ℚ)
    (hN : 0 < N) (hw : d < w) (hlen : ts.length = N + 1)
    (hts : ∀ x ∈ ts, t ≤ x ∧ x ≤ t + d) :
    (run_rate_limiter N w [] ts).1 = List.replicate N true ++ [false] ∧
    (rate_limit_call (run_rate_limiter N w [] ts).2 (t + d + w) N w).1 = true := by
  have htake : (ts.take N).length = N := by
    rw [List.length_take]
    omega
  have hdrop : (ts.drop N).length = 1 := by
    rw [List.length_drop, hlen]
    omega
  obtain ⟨x, hx⟩ := List.length_eq_one.mp hdrop
  have hsplit : ts = ts.take N ++ [x] := by
    rw [← hx, List.take_append_drop]
  have hsub : ∀ e ∈ ts.take N, t ≤ e ∧ e ≤ t + d :=
    fun e he => hts e (List.mem_of_mem_take he)
  have hxmem : x ∈ ts := by
    rw [hsplit]
    simp
  have hxb := hts x hxmem
  have hw' : (t + d) - t < w := by linarith
  have hrun1 : run_rate_limiter N w [] (ts.take N)
      = (List.replicate N true, ts.take N) := by
    have h := run_rate_limiter_all_accepted N w t (t + d) hw' (ts.take N) []
      (by simp) hsub (by simp [htake])
    simpa [htake] using h
  have hprune2 := rate_limiter_no_prune (ts.take N) x t (t + d) w hsub hxb.1 hxb.2 hw'
  have hstep2 : rate_limit_call (ts.take N) x N w = (false, ts.take N) := by
    simp only [rate_limit_call]
    rw [hprune2, if_pos (by rw [htake])]
  have hrun : run_rate_limiter N w [] ts
      = (List.replicate N true ++ [false], ts.take N) := by
    rw [hsplit, run_rate_limiter_append, hrun1]
    simp [run_rate_limiter, hstep2]
    exact (List.take_left' htake).symm
  refine ⟨by rw [hrun], ?_⟩
  rw [hrun]
  have hpr : (ts.take N).filter (fun e => decide (e > (t + d + w) - w)) = [] := by
    apply List.filter_eq_nil_iff.mpr
    intro e he
    have h := hsub e he
    simp
    linarith [h.2]
  simp only [rate_limit_call]
  rw [hpr, if_neg (by simp; omega)]

/-- Witness for C8 with maximum 1, window 2 and calls at times 0 and 1:
the first call is admitted, the second rejected, and a call at time 3 (one
full window past the burst span) is admitted again. -/
theorem rate_limiter_window_bound_witness :
    (run_rate_limiter 1 2 [] [0, 1]).1 = List.replicate 1 true ++ [false] ∧
    (rate_limit_call (run_rate_limiter 1 2 [] [0, 1]).2 (0 + 1 + 2) 1 2).1 = true :=
  rate_limiter_window_bound 1 2 0 1 [0, 1] (by decide) (by norm_num)
    (by decide)
    (by
      intro x hx
      simp at hx
      rcases hx with h | h <;> subst h <;> norm_num)

/-- C9: role-name matching is case-insensitive — `has_role` holds exactly
when some role name equals the argument after lowercasing — and consequently
a role spelled `SuperAdmin` triggers the superadmin special case. -/
theorem has_role_case_insensitive (u : User) (role_name : String) :
    (has_role u role_name = true ↔
      ∃ r ∈ u.roles, strLower r.name = strLower role_name) ∧
    demoSuperadmin.roles.map Role.name = ["SuperAdmin"] ∧
    is_superadmin demoSuperadmin = true := by
  refine ⟨?_, by decide, by decide⟩
  simp [has_role, List.any_eq_true, beq_iff_eq]
